import Mathlib

/-!
Verification of `react-native-responsive-hook`.

Shallow embedding of the three source files:
* `constants.js` — the static configuration (`baseDevice`, `baseFontSize`,
  `maxFontScaleFactor`, `breakpoints`);
* `useResponsiveScreen.js` — the hook's pure conversion functions
  (`wp`, `hp`, `vw`, `vh`, `rem`, `rf`, `isLandscape`, `isPortrait`,
  `getBreakpointGroup`);
* `index.js` — the legacy module; its top-level evaluation order is embedded
  as a statement list to analyse the temporal-dead-zone read at line 12.

JavaScript numbers are embedded as exact rationals (`ℚ`); `Math.floor` is
`Int.floor`, `Math.round` is Mathlib's `round` (both round a half toward
positive infinity, matching JS semantics).
-/

namespace ResponsiveHook

/-- Device size record, mirroring the shape of the `baseDevice` object literal
in `constants.js`. -/
structure DeviceSize where
  width : ℚ
  height : ℚ

/-- From `constants.js`: `baseDevice = { width: 375, height: 812 }`. -/
def baseDevice : DeviceSize := { width := 375, height := 812 }

/-- From `constants.js`: `baseFontSize = 16`. -/
def baseFontSize : ℚ := 16

/-- From `constants.js`: `maxFontScaleFactor = 2`. -/
def maxFontScaleFactor : ℚ := 2

/-- From `constants.js`: the `breakpoints` object, as the ordered list of
`(name, low, high)` entries in declaration order. -/
def breakpoints : List (String × ℚ × ℚ) :=
  [("group1", 0, 399),
   ("group2", 400, 599),
   ("group3", 600, 767),
   ("group4", 768, 1007),
   ("group5", 1008, 1279),
   ("group6", 1280, 8192)]

/-- Input to the conversion functions: either a JS number, or a numeric string
whose `parseFloat` value is the carried rational.  This models the coercion
step `typeof x === 'number' ? x : parseFloat(x)` that opens every conversion
function; non-numeric strings (which would give `NaN`) are outside the claims
considered here and are not represented. -/
inductive NumOrStr where
  | num (q : ℚ)
  | numStr (q : ℚ)
deriving DecidableEq

/-- The value produced by `typeof x === 'number' ? x : parseFloat(x)`. -/
def toNumber : NumOrStr → ℚ
  | NumOrStr.num q => q
  | NumOrStr.numStr q => q

/-- From `useResponsiveScreen.js`: `const isLandscape = width > height`. -/
def isLandscape (width height : ℚ) : Bool := decide (height < width)

/-- From `useResponsiveScreen.js`: `const isPortrait = width < height`. -/
def isPortrait (width height : ℚ) : Bool := decide (width < height)

/-- The `for (let group in breakpoints)` loop body of `getBreakpointGroup`:
return the first entry whose closed interval contains the width, otherwise
fall through (returning `undefined`, embedded as `none`). -/
def findGroup (w : ℚ) : List (String × ℚ × ℚ) → Option String
  | [] => none
  | e :: rest => if e.2.1 ≤ w ∧ w ≤ e.2.2 then some e.1 else findGroup w rest

/-- From `useResponsiveScreen.js` (and identically `index.js`):
`getBreakpointGroup` scans the breakpoint table in order and returns the name
of the first interval containing the width; `none` models the implicit
`undefined` when no interval matches. -/
def getBreakpointGroup (width : ℚ) : Option String := findGroup width breakpoints

/-- Number of breakpoint entries whose interval contains `w`; used to state
exclusivity/exhaustiveness of the table. -/
def matchCount (w : ℚ) : ℕ :=
  (breakpoints.filter (fun e => decide (e.2.1 ≤ w ∧ w ≤ e.2.2))).length

/-- React-native's `PixelRatio.roundToNearestPixel`, modelled from the spec's
description of pixel rounding: `Math.round(layoutSize * ratio) / ratio`, where
`ratio` is the device pixel density. -/
def roundToNearestPixel (ratio x : ℚ) : ℚ := (round (x * ratio) : ℚ) / ratio

/-- From `useResponsiveScreen.js`:
`wp = (widthPercent) => PixelRatio.roundToNearestPixel((width * elementWidth) / 100)`. -/
def wp (width ratio : ℚ) (widthPercent : NumOrStr) : ℚ :=
  roundToNearestPixel ratio (width * toNumber widthPercent / 100)

/-- From `useResponsiveScreen.js`:
`hp = (heightPercent) => PixelRatio.roundToNearestPixel((height * elementHeight) / 100)`. -/
def hp (height ratio : ℚ) (heightPercent : NumOrStr) : ℚ :=
  roundToNearestPixel ratio (height * toNumber heightPercent / 100)

/-- From `useResponsiveScreen.js`:
`vw = (widthPercent) => Math.floor((width / 100) * elementWidth)`. -/
def vw (width : ℚ) (widthPercent : NumOrStr) : ℤ :=
  ⌊width / 100 * toNumber widthPercent⌋

/-- From `useResponsiveScreen.js`:
`vh = (heightPercent) => Math.floor((height / 100) * elementHeight)`. -/
def vh (height : ℚ) (heightPercent : NumOrStr) : ℤ :=
  ⌊height / 100 * toNumber heightPercent⌋

/-- From `useResponsiveScreen.js`: `const base = isLandscape ? height : width`. -/
def base (width height : ℚ) : ℚ :=
  if isLandscape width height then height else width

/-- From `useResponsiveScreen.js`: `rem = (size = 0) => ...`.  The `Option`
argument models an argument that may be omitted (`none`), in which case the
default parameter value `0` applies. -/
def rem (width height : ℚ) (size : Option NumOrStr) : ℤ :=
  let multiplier : ℚ := if max height width < baseDevice.height then 0.9 else 1
  let elementSize := toNumber ((size.getD (NumOrStr.num 0)))
  ⌊base width height / baseDevice.width * elementSize * multiplier⌋

/-- From `useResponsiveScreen.js`: `rf = (size = 0) => ...`.  Note the closure
reads only the configuration constants, not `width`/`height`. -/
def rf (size : Option NumOrStr) : ℚ :=
  let elementSize := toNumber (size.getD (NumOrStr.num 0))
  min (baseFontSize * maxFontScaleFactor) elementSize

/-- The `rem` formula as the spec words it: base is `height` when
`width > height` (landscape) and `width` otherwise; multiplier is `0.9` when
`max(width, height) < baseDevice.height` and `1` otherwise; result is
`floor(base / baseDevice.width * size * multiplier)`. -/
def remSpecFormula (width height sizeVal : ℚ) : ℤ :=
  let b := if height < width then height else width
  let multiplier : ℚ := if max width height < baseDevice.height then 0.9 else 1
  ⌊b / baseDevice.width * sizeVal * multiplier⌋

/-- The viewport-unit formula as the spec words it:
`floor(axis_size / 100 * percent)`. -/
def viewportUnitSpec (axisSize pct : ℚ) : ℤ := ⌊axisSize / 100 * pct⌋

end ResponsiveHook

namespace IndexModule

/-- Import bindings of `index.js`; these are initialized before any module
statement runs. -/
def importBindings : List String :=
  ["Dimensions", "PixelRatio", "Platform", "useResponsive",
   "baseDevice", "baseFontSize", "breakpoints", "maxFontScaleFactor"]

/-- Top-level `let`/`const` statements of `index.js` in source order, each with
the module-scope identifiers its initializer reads, in left-to-right
evaluation order.  Function-literal initializers read nothing at declaration
time.  Line 12 (`const base = isLandscape ? screenHeight : screenWidth`)
evaluates `isLandscape` first; its branches are listed after, though
evaluation never reaches them. -/
def stmts : List (String × List String) :=
  [("screenWidth", ["Dimensions"]),
   ("screenHeight", ["Dimensions"]),
   ("base", ["isLandscape", "screenHeight", "screenWidth"]),
   ("isIOS", ["Platform"]),
   ("isAndroid", ["Platform"]),
   ("isLandscape", ["screenWidth", "screenHeight"]),
   ("isPortrait", ["screenWidth", "screenHeight"]),
   ("widthPercentageToDP", []),
   ("heightPercentageToDP", []),
   ("listenOrientationChange", []),
   ("removeOrientationListener", []),
   ("viewportWidthPercentage", []),
   ("viewportHeightPercentage", []),
   ("remUnit", []),
   ("responsiveFont", []),
   ("getBreakpointGroup", []),
   ("breakpointGroup", ["getBreakpointGroup", "breakpoints", "screenWidth"])]

/-- Sequential evaluation of the module body under temporal-dead-zone rules:
reading a binding that is not yet initialized throws a `ReferenceError`
naming it; otherwise the statement's own binding becomes initialized.  On
success, the list of initialized bindings is returned. -/
def evalStmts (initialized : List String) :
    List (String × List String) → Except String (List String)
  | [] => Except.ok initialized
  | (n, rs) :: rest =>
    match rs.find? (fun r => !(initialized.contains r)) with
    | some r => Except.error ("ReferenceError: " ++ r)
    | none => evalStmts (n :: initialized) rest

/-- Evaluation of the whole top level of `index.js`. -/
def evalModule : Except String (List String) := evalStmts importBindings stmts

end IndexModule

namespace ResponsiveHook

/-! Helper lemmas about the breakpoint table. -/

lemma findGroup_eq_none {w : ℚ} :
    ∀ l : List (String × ℚ × ℚ), (∀ e ∈ l, ¬(e.2.1 ≤ w ∧ w ≤ e.2.2)) → findGroup w l = none := by
  intro l
  induction l with
  | nil => intro _; rfl
  | cons e rest ih =>
    intro h
    rw [findGroup, if_neg (h e (List.mem_cons_self e rest))]
    exact ih fun x hx => h x (List.mem_cons_of_mem e hx)

lemma noMatch_all (w : ℚ) (n1 : ¬(0 ≤ w ∧ w ≤ 399)) (n2 : ¬(400 ≤ w ∧ w ≤ 599))
    (n3 : ¬(600 ≤ w ∧ w ≤ 767)) (n4 : ¬(768 ≤ w ∧ w ≤ 1007))
    (n5 : ¬(1008 ≤ w ∧ w ≤ 1279)) (n6 : ¬(1280 ≤ w ∧ w ≤ 8192)) :
    getBreakpointGroup w = none ∧ matchCount w = 0 := by
  constructor
  · simp [getBreakpointGroup, findGroup, breakpoints, n1, n2, n3, n4, n5, n6]
  · simp [matchCount, breakpoints, List.filter_cons, List.filter_nil, n1, n2, n3, n4, n5, n6]

lemma breakpointRange1 (w : ℚ) (hlo : 0 ≤ w) (hhi : w ≤ 399) :
    getBreakpointGroup w = some "group1" ∧ matchCount w = 1 := by
  have n2 : ¬(400 ≤ w ∧ w ≤ 599) := by rintro ⟨a, -⟩; linarith
  have n3 : ¬(600 ≤ w ∧ w ≤ 767) := by rintro ⟨a, -⟩; linarith
  have n4 : ¬(768 ≤ w ∧ w ≤ 1007) := by rintro ⟨a, -⟩; linarith
  have n5 : ¬(1008 ≤ w ∧ w ≤ 1279) := by rintro ⟨a, -⟩; linarith
  have n6 : ¬(1280 ≤ w ∧ w ≤ 8192) := by rintro ⟨a, -⟩; linarith
  constructor
  · simp [getBreakpointGroup, findGroup, breakpoints, hlo, hhi]
  · simp [matchCount, breakpoints, List.filter_cons, List.filter_nil, hlo, hhi, n2, n3, n4, n5, n6]

lemma breakpointRange2 (w : ℚ) (hlo : 400 ≤ w) (hhi : w ≤ 599) :
    getBreakpointGroup w = some "group2" ∧ matchCount w = 1 := by
  have n1 : ¬(0 ≤ w ∧ w ≤ 399) := by rintro ⟨-, a⟩; linarith
  have n3 : ¬(600 ≤ w ∧ w ≤ 767) := by rintro ⟨a, -⟩; linarith
  have n4 : ¬(768 ≤ w ∧ w ≤ 1007) := by rintro ⟨a, -⟩; linarith
  have n5 : ¬(1008 ≤ w ∧ w ≤ 1279) := by rintro ⟨a, -⟩; linarith
  have n6 : ¬(1280 ≤ w ∧ w ≤ 8192) := by rintro ⟨a, -⟩; linarith
  constructor
  · simp [getBreakpointGroup, findGroup, breakpoints, hlo, hhi, n1]
  · simp [matchCount, breakpoints, List.filter_cons, List.filter_nil, hlo, hhi, n1, n3, n4, n5, n6]

lemma breakpointRange3 (w : ℚ) (hlo : 600 ≤ w) (hhi : w ≤ 767) :
    getBreakpointGroup w = some "group3" ∧ matchCount w = 1 := by
  have n1 : ¬(0 ≤ w ∧ w ≤ 399) := by rintro ⟨-, a⟩; linarith
  have n2 : ¬(400 ≤ w ∧ w ≤ 599) := by rintro ⟨-, a⟩; linarith
  have n4 : ¬(768 ≤ w ∧ w ≤ 1007) := by rintro ⟨a, -⟩; linarith
  have n5 : ¬(1008 ≤ w ∧ w ≤ 1279) := by rintro ⟨a, -⟩; linarith
  have n6 : ¬(1280 ≤ w ∧ w ≤ 8192) := by rintro ⟨a, -⟩; linarith
  constructor
  · simp [getBreakpointGroup, findGroup, breakpoints, hlo, hhi, n1, n2]
  · simp [matchCount, breakpoints, List.filter_cons, List.filter_nil, hlo, hhi, n1, n2, n4, n5, n6]

lemma breakpointRange4 (w : ℚ) (hlo : 768 ≤ w) (hhi : w ≤ 1007) :
    getBreakpointGroup w = some "group4" ∧ matchCount w = 1 := by
  have n1 : ¬(0 ≤ w ∧ w ≤ 399) := by rintro ⟨-, a⟩; linarith
  have n2 : ¬(400 ≤ w ∧ w ≤ 599) := by rintro ⟨-, a⟩; linarith
  have n3 : ¬(600 ≤ w ∧ w ≤ 767) := by rintro ⟨-, a⟩; linarith
  have n5 : ¬(1008 ≤ w ∧ w ≤ 1279) := by rintro ⟨a, -⟩; linarith
  have n6 : ¬(1280 ≤ w ∧ w ≤ 8192) := by rintro ⟨a, -⟩; linarith
  constructor
  · simp [getBreakpointGroup, findGroup, breakpoints, hlo, hhi, n1, n2, n3]
  · simp [matchCount, breakpoints, List.filter_cons, List.filter_nil, hlo, hhi, n1, n2, n3, n5, n6]

lemma breakpointRange5 (w : ℚ) (hlo : 1008 ≤ w) (hhi : w ≤ 1279) :
    getBreakpointGroup w = some "group5" ∧ matchCount w = 1 := by
  have n1 : ¬(0 ≤ w ∧ w ≤ 399) := by rintro ⟨-, a⟩; linarith
  have n2 : ¬(400 ≤ w ∧ w ≤ 599) := by rintro ⟨-, a⟩; linarith
  have n3 : ¬(600 ≤ w ∧ w ≤ 767) := by rintro ⟨-, a⟩; linarith
  have n4 : ¬(768 ≤ w ∧ w ≤ 1007) := by rintro ⟨-, a⟩; linarith
  have n6 : ¬(1280 ≤ w ∧ w ≤ 8192) := by rintro ⟨a, -⟩; linarith
  constructor
  · simp [getBreakpointGroup, findGroup, breakpoints, hlo, hhi, n1, n2, n3, n4]
  · simp [matchCount, breakpoints, List.filter_cons, List.filter_nil, hlo, hhi, n1, n2, n3, n4, n6]

lemma breakpointRange6 (w : ℚ) (hlo : 1280 ≤ w) (hhi : w ≤ 8192) :
    getBreakpointGroup w = some "group6" ∧ matchCount w = 1 := by
  have n1 : ¬(0 ≤ w ∧ w ≤ 399) := by rintro ⟨-, a⟩; linarith
  have n2 : ¬(400 ≤ w ∧ w ≤ 599) := by rintro ⟨-, a⟩; linarith
  have n3 : ¬(600 ≤ w ∧ w ≤ 767) := by rintro ⟨-, a⟩; linarith
  have n4 : ¬(768 ≤ w ∧ w ≤ 1007) := by rintro ⟨-, a⟩; linarith
  have n5 : ¬(1008 ≤ w ∧ w ≤ 1279) := by rintro ⟨-, a⟩; linarith
  constructor
  · simp [getBreakpointGroup, findGroup, breakpoints, hlo, hhi, n1, n2, n3, n4, n5]
  · simp [matchCount, breakpoints, List.filter_cons, List.filter_nil, hlo, hhi, n1, n2, n3, n4, n5]

lemma matchCount_le_one (w : ℚ) : matchCount w ≤ 1 := by
  by_cases c1 : 0 ≤ w ∧ w ≤ 399
  · exact le_of_eq (breakpointRange1 w c1.1 c1.2).2
  by_cases c2 : 400 ≤ w ∧ w ≤ 599
  · exact le_of_eq (breakpointRange2 w c2.1 c2.2).2
  by_cases c3 : 600 ≤ w ∧ w ≤ 767
  · exact le_of_eq (breakpointRange3 w c3.1 c3.2).2
  by_cases c4 : 768 ≤ w ∧ w ≤ 1007
  · exact le_of_eq (breakpointRange4 w c4.1 c4.2).2
  by_cases c5 : 1008 ≤ w ∧ w ≤ 1279
  · exact le_of_eq (breakpointRange5 w c5.1 c5.2).2
  by_cases c6 : 1280 ≤ w ∧ w ≤ 8192
  · exact le_of_eq (breakpointRange6 w c6.1 c6.2).2
  have := (noMatch_all w c1 c2 c3 c4 c5 c6).2
  omega

end ResponsiveHook

namespace ResponsiveHook

/-- C1 counterexample: the claim fails as stated.  The integer width 10000 (and
already 8193) lies above the top interval `group6 = [1280, 8192]`, so
classification returns no breakpoint name; and the non-negative rational width
399.5 falls in the gap between `group1 = [0, 399]` and `group2 = [400, 599]`,
so the intervals are not collectively exhaustive over the non-negative real
line. -/
theorem breakpoints_partition_counterexample :
    getBreakpointGroup 10000 = none ∧ matchCount 10000 = 0 ∧
    getBreakpointGroup (799 / 2 : ℚ) = none ∧ matchCount (799 / 2 : ℚ) = 0 := by
  obtain ⟨ha, hb⟩ := noMatch_all 10000
    (by rintro ⟨-, a⟩; norm_num at a) (by rintro ⟨-, a⟩; norm_num at a)
    (by rintro ⟨-, a⟩; norm_num at a) (by rintro ⟨-, a⟩; norm_num at a)
    (by rintro ⟨-, a⟩; norm_num at a) (by rintro ⟨-, a⟩; norm_num at a)
  obtain ⟨hc, hd⟩ := noMatch_all (799 / 2 : ℚ)
    (by rintro ⟨-, a⟩; norm_num at a) (by rintro ⟨a, -⟩; norm_num at a)
    (by rintro ⟨a, -⟩; norm_num at a) (by rintro ⟨a, -⟩; norm_num at a)
    (by rintro ⟨a, -⟩; norm_num at a) (by rintro ⟨a, -⟩; norm_num at a)
  exact ⟨ha, hb, hc, hd⟩

/-- C1 (amended): the configured intervals are mutually exclusive (no width
lies in two intervals), and classification is a total partition of the integer
widths 0 to 8192: every such width is matched by exactly one interval and the
classification function returns that interval's name, whose bounds contain the
width. -/
theorem breakpoints_partition_amended :
    (∀ w : ℚ, matchCount w ≤ 1) ∧
    (∀ n : ℕ, n ≤ 8192 →
      matchCount (n : ℚ) = 1 ∧
      ∃ g lo hi, getBreakpointGroup (n : ℚ) = some g ∧ (g, lo, hi) ∈ breakpoints ∧
        lo ≤ (n : ℚ) ∧ (n : ℚ) ≤ hi) := by
  refine ⟨matchCount_le_one, ?_⟩
  intro n hn
  rcases (by omega :
      n ≤ 399 ∨ (400 ≤ n ∧ n ≤ 599) ∨ (600 ≤ n ∧ n ≤ 767) ∨ (768 ≤ n ∧ n ≤ 1007) ∨
      (1008 ≤ n ∧ n ≤ 1279) ∨ (1280 ≤ n ∧ n ≤ 8192)) with h | h | h | h | h | h
  · have hlo : (0 : ℚ) ≤ (n : ℚ) := by positivity
    have hhi : (n : ℚ) ≤ 399 := by exact_mod_cast h
    obtain ⟨hg, hc⟩ := breakpointRange1 (n : ℚ) hlo hhi
    exact ⟨hc, "group1", 0, 399, hg, by simp [breakpoints], hlo, hhi⟩
  · have hlo : (400 : ℚ) ≤ (n : ℚ) := by exact_mod_cast h.1
    have hhi : (n : ℚ) ≤ 599 := by exact_mod_cast h.2
    obtain ⟨hg, hc⟩ := breakpointRange2 (n : ℚ) hlo hhi
    exact ⟨hc, "group2", 400, 599, hg, by simp [breakpoints], hlo, hhi⟩
  · have hlo : (600 : ℚ) ≤ (n : ℚ) := by exact_mod_cast h.1
    have hhi : (n : ℚ) ≤ 767 := by exact_mod_cast h.2
    obtain ⟨hg, hc⟩ := breakpointRange3 (n : ℚ) hlo hhi
    exact ⟨hc, "group3", 600, 767, hg, by simp [breakpoints], hlo, hhi⟩
  · have hlo : (768 : ℚ) ≤ (n : ℚ) := by exact_mod_cast h.1
    have hhi : (n : ℚ) ≤ 1007 := by exact_mod_cast h.2
    obtain ⟨hg, hc⟩ := breakpointRange4 (n : ℚ) hlo hhi
    exact ⟨hc, "group4", 768, 1007, hg, by simp [breakpoints], hlo, hhi⟩
  · have hlo : (1008 : ℚ) ≤ (n : ℚ) := by exact_mod_cast h.1
    have hhi : (n : ℚ) ≤ 1279 := by exact_mod_cast h.2
    obtain ⟨hg, hc⟩ := breakpointRange5 (n : ℚ) hlo hhi
    exact ⟨hc, "group5", 1008, 1279, hg, by simp [breakpoints], hlo, hhi⟩
  · have hlo : (1280 : ℚ) ≤ (n : ℚ) := by exact_mod_cast h.1
    have hhi : (n : ℚ) ≤ 8192 := by exact_mod_cast h.2
    obtain ⟨hg, hc⟩ := breakpointRange6 (n : ℚ) hlo hhi
    exact ⟨hc, "group6", 1280, 8192, hg, by simp [breakpoints], hlo, hhi⟩

/-- Witness for the amended C1 theorem at the concrete integer width 700 (the
spec's own example, classified as `group3`). -/
theorem breakpoints_partition_amended_witness :
    matchCount ((700 : ℕ) : ℚ) = 1 ∧
    ∃ g lo hi, getBreakpointGroup ((700 : ℕ) : ℚ) = some g ∧ (g, lo, hi) ∈ breakpoints ∧
      lo ≤ ((700 : ℕ) : ℚ) ∧ ((700 : ℕ) : ℚ) ≤ hi :=
  breakpoints_partition_amended.2 700 (by norm_num)

/-- C6: when no configured interval contains the width, classification returns
the distinguished sentinel `none` (the implicit `undefined` of the source),
which is distinct from `some g` for every breakpoint name `g`. -/
theorem no_match_returns_none :
    ∀ w : ℚ, (∀ e ∈ breakpoints, ¬(e.2.1 ≤ w ∧ w ≤ e.2.2)) →
      getBreakpointGroup w = none ∧ ∀ e ∈ breakpoints, getBreakpointGroup w ≠ some e.1 := by
  intro w h
  have hg : getBreakpointGroup w = none := findGroup_eq_none breakpoints h
  refine ⟨hg, fun e _ hcontra => ?_⟩
  rw [hg] at hcontra
  exact Option.noConfusion hcontra

/-- Witness for C6 at width 9000, which lies above every configured interval. -/
theorem no_match_returns_none_witness :
    getBreakpointGroup 9000 = none ∧
      ∀ e ∈ breakpoints, getBreakpointGroup 9000 ≠ some e.1 :=
  no_match_returns_none 9000 (by decide)

end ResponsiveHook

namespace IndexModule

/-- C2: evaluating the top level of `index.js` always throws a
`ReferenceError`: line 12 reads `isLandscape` inside the temporal dead zone of
its `const` declaration at line 30, so module evaluation errors before any
export is produced and the module's exports are unreachable. -/
theorem index_module_evaluation_throws :
    evalModule = Except.error "ReferenceError: isLandscape" := by rfl

end IndexModule

namespace ResponsiveHook

/-- C3: for every width, height and numeric (or numeric-string) size, `rem`
computes `floor(base / baseDevice.width * size * multiplier)` with `base`
being `height` when `width > height` and `width` otherwise, and `multiplier`
being `0.9` when `max(width, height) < baseDevice.height` and `1` otherwise;
in particular `rem 16` at width 375, height 812 returns 16. -/
theorem rem_matches_spec_formula :
    (∀ width height : ℚ, ∀ size : NumOrStr,
      rem width height (some size) = remSpecFormula width height (toNumber size)) ∧
    rem 375 812 (some (NumOrStr.num 16)) = 16 := by
  constructor
  · intro w h s
    simp [rem, remSpecFormula, base, isLandscape, max_comm h w]
  · norm_num [rem, base, isLandscape, toNumber, baseDevice]

/-- C5: with the argument omitted (the source's `size = 0` default parameter),
`rem` returns 0 for every width and height, and `rf` returns 0. -/
theorem rem_rf_default_zero :
    ∀ width height : ℚ, rem width height none = 0 ∧ rf none = 0 := by
  intro w h
  constructor
  · simp [rem, toNumber]
  · norm_num [rf, toNumber, baseFontSize, maxFontScaleFactor, min_def]

/-- C7: `isLandscape` holds exactly when width exceeds height and `isPortrait`
exactly when height exceeds width; on a square viewport both are false. -/
theorem orientation_flags :
    ∀ width height : ℚ,
      (height < width → isLandscape width height = true ∧ isPortrait width height = false) ∧
      (width < height → isLandscape width height = false ∧ isPortrait width height = true) ∧
      (width = height → isLandscape width height = false ∧ isPortrait width height = false) := by
  intro w h
  refine ⟨fun hl => ⟨?_, ?_⟩, fun hl => ⟨?_, ?_⟩, fun hl => ⟨?_, ?_⟩⟩
  · simp [isLandscape, hl]
  · simp [isPortrait, asymm hl]
  · simp [isLandscape, asymm hl]
  · simp [isPortrait, hl]
  · simp [isLandscape, hl]
  · simp [isPortrait, hl]

/-- Witness for C7 at the concrete viewports (2, 1), (1, 2) and (1, 1). -/
theorem orientation_flags_witness :
    (isLandscape 2 1 = true ∧ isPortrait 2 1 = false) ∧
    (isLandscape 1 2 = false ∧ isPortrait 1 2 = true) ∧
    (isLandscape 1 1 = false ∧ isPortrait 1 1 = false) :=
  ⟨(orientation_flags 2 1).1 (by norm_num),
   (orientation_flags 1 2).2.1 (by norm_num),
   (orientation_flags 1 1).2.2 rfl⟩

/-- C8: `rf` is a pure upper clamp `min (baseFontSize * maxFontScaleFactor) size`
(taking no width or height input at all), it leaves every size below the bound
unchanged — including negative sizes — and with the default configuration
`rf 40 = 32`. -/
theorem rf_upper_clamp :
    (∀ size : NumOrStr,
      rf (some size) = min (baseFontSize * maxFontScaleFactor) (toNumber size)) ∧
    (∀ s : ℚ, s ≤ baseFontSize * maxFontScaleFactor → rf (some (NumOrStr.num s)) = s) ∧
    rf (some (NumOrStr.num 40)) = 32 := by
  refine ⟨fun s => rfl, fun s hs => ?_, ?_⟩
  · simp [rf, toNumber, min_eq_right hs]
  · norm_num [rf, toNumber, baseFontSize, maxFontScaleFactor, min_def]

/-- Witness for C8: a size below the bound — here the negative size −5 — is
returned unchanged. -/
theorem rf_upper_clamp_witness : rf (some (NumOrStr.num (-5))) = -5 :=
  rf_upper_clamp.2.1 (-5) (by norm_num [baseFontSize, maxFontScaleFactor])

/-- C9: `vw` and `vh` compute `floor(axis_size / 100 * percent)` for numeric
and numeric-string percentages, with no pixel-density adjustment (the
definition takes no density input); in particular `vw 50` at width 375 is 187. -/
theorem vw_vh_formula :
    (∀ width : ℚ, ∀ p : NumOrStr, vw width p = viewportUnitSpec width (toNumber p)) ∧
    (∀ height : ℚ, ∀ p : NumOrStr, vh height p = viewportUnitSpec height (toNumber p)) ∧
    vw 375 (NumOrStr.num 50) = 187 := by
  refine ⟨fun w p => rfl, fun h p => rfl, ?_⟩
  have h1 : (375 / 100 * toNumber (NumOrStr.num 50) : ℚ) = ((375 : ℤ) : ℚ) / ((2 : ℕ) : ℚ) := by
    norm_num [toNumber]
  simp only [vw, h1, Rat.floor_intCast_div_natCast]
  decide

end ResponsiveHook

namespace ResponsiveHook

/-- Mathlib's `round` (JS `Math.round`) is monotone. -/
lemma round_mono_of_le {x y : ℚ} (hxy : x ≤ y) : round x ≤ round y := by
  rw [round_eq, round_eq]
  exact Int.floor_mono (by linarith)

/-- Mathlib's `round` (JS `Math.round`) preserves non-negativity. -/
lemma round_nonneg_of_nonneg {x : ℚ} (hx : 0 ≤ x) : (0 : ℤ) ≤ round x := by
  rw [round_eq]
  exact Int.le_floor.mpr (by push_cast; linarith)

/-- C4 counterexample: the claim's unconditional "the output is a non-negative
number" fails for a negative percentage.  At width 375, density 1,
`wp (-100)` is −375, a negative output (while no error is raised: the formula
is applied uniformly, as the rest of the claim states). -/
theorem wp_negative_output_counterexample :
    wp 375 1 (NumOrStr.num (-100)) = -375 ∧ wp 375 1 (NumOrStr.num (-100)) < 0 := by
  have h1 : (375 * toNumber (NumOrStr.num (-100)) / 100 * 1 : ℚ) = ((-375 : ℤ) : ℚ) := by
    norm_num [toNumber]
  constructor <;> · simp only [wp, roundToNearestPixel, h1, round_intCast]; norm_num

/-- C4 (amended): for every percentage input (numeric or numeric string),
`wp` equals `round_to_nearest_pixel(width * p / 100)` and `hp` the analogue
over height — both total functions, raising no error for any percentage — and
the output is non-negative whenever the percentage is non-negative (given
non-negative axis sizes and positive pixel density). -/
theorem wp_hp_formula_nonneg :
    ∀ (width height ρ : ℚ) (p : NumOrStr), 0 ≤ width → 0 ≤ height → 0 < ρ →
      0 ≤ toNumber p →
      wp width ρ p = roundToNearestPixel ρ (width * toNumber p / 100) ∧
      hp height ρ p = roundToNearestPixel ρ (height * toNumber p / 100) ∧
      0 ≤ wp width ρ p ∧ 0 ≤ hp height ρ p := by
  intro w h ρ p hw hh hρ hpn
  refine ⟨rfl, rfl, ?_, ?_⟩
  · apply div_nonneg _ hρ.le
    have h0 : (0 : ℤ) ≤ round (w * toNumber p / 100 * ρ) :=
      round_nonneg_of_nonneg (by positivity)
    exact_mod_cast h0
  · apply div_nonneg _ hρ.le
    have h0 : (0 : ℤ) ≤ round (h * toNumber p / 100 * ρ) :=
      round_nonneg_of_nonneg (by positivity)
    exact_mod_cast h0

/-- Witness for the amended C4 theorem at width 375, height 812, density 2,
percentage 50. -/
theorem wp_hp_formula_nonneg_witness :
    wp 375 2 (NumOrStr.num 50) = roundToNearestPixel 2 (375 * toNumber (NumOrStr.num 50) / 100) ∧
    hp 812 2 (NumOrStr.num 50) = roundToNearestPixel 2 (812 * toNumber (NumOrStr.num 50) / 100) ∧
    0 ≤ wp 375 2 (NumOrStr.num 50) ∧ 0 ≤ hp 812 2 (NumOrStr.num 50) :=
  wp_hp_formula_nonneg 375 812 2 (NumOrStr.num 50)
    (by norm_num) (by norm_num) (by norm_num) (by norm_num [toNumber])

/-- C10: for positive axis size and density and percentages `0 ≤ p ≤ q ≤ 100`,
`wp` is non-negative, bounded above by `round_to_nearest_pixel` of the axis
size, and monotone non-decreasing in the percentage; `vw` is monotone too; and
both return 0 at percentage 0.  (`wp` and `vw` need not agree pointwise: one
pixel-rounds, the other floors.) -/
theorem wp_vw_monotone_bounded :
    ∀ a ρ p q : ℚ, 0 < a → 0 < ρ → 0 ≤ p → p ≤ q → q ≤ 100 →
      0 ≤ wp a ρ (NumOrStr.num p) ∧
      wp a ρ (NumOrStr.num p) ≤ roundToNearestPixel ρ a ∧
      wp a ρ (NumOrStr.num p) ≤ wp a ρ (NumOrStr.num q) ∧
      vw a (NumOrStr.num p) ≤ vw a (NumOrStr.num q) ∧
      wp a ρ (NumOrStr.num 0) = 0 ∧ vw a (NumOrStr.num 0) = 0 := by
  intro a ρ p q ha hρ hp0 hpq hq100
  refine ⟨?_, ?_, ?_, ?_, ?_, ?_⟩
  · apply div_nonneg _ hρ.le
    have h0 : (0 : ℤ) ≤ round (a * p / 100 * ρ) := round_nonneg_of_nonneg (by positivity)
    exact_mod_cast h0
  · rw [wp, roundToNearestPixel, roundToNearestPixel, toNumber, div_le_div_iff_of_pos_right hρ]
    have harg : a * p / 100 * ρ ≤ a * ρ := by
      have hp100 : p ≤ 100 := le_trans hpq hq100
      calc a * p / 100 * ρ = a * ρ * (p / 100) := by ring
        _ ≤ a * ρ * 1 := by
            apply mul_le_mul_of_nonneg_left (by linarith) (by positivity)
        _ = a * ρ := by ring
    exact_mod_cast round_mono_of_le harg
  · rw [wp, wp, roundToNearestPixel, roundToNearestPixel, toNumber, toNumber,
      div_le_div_iff_of_pos_right hρ]
    have harg : a * p / 100 * ρ ≤ a * q / 100 * ρ := by
      have h1 : a * p ≤ a * q := mul_le_mul_of_nonneg_left hpq ha.le
      have h2 : a * p / 100 ≤ a * q / 100 := by linarith
      exact mul_le_mul_of_nonneg_right h2 hρ.le
    exact_mod_cast round_mono_of_le harg
  · apply Int.floor_mono
    have h1 : a / 100 * p ≤ a / 100 * q := mul_le_mul_of_nonneg_left hpq (by positivity)
    simpa [vw, toNumber] using h1
  · simp [wp, roundToNearestPixel, toNumber]
  · simp [vw, toNumber]

/-- Witness for C10 at axis size 375, density 2, percentages 30 and 60. -/
theorem wp_vw_monotone_bounded_witness :
    0 ≤ wp 375 2 (NumOrStr.num 30) ∧
    wp 375 2 (NumOrStr.num 30) ≤ roundToNearestPixel 2 375 ∧
    wp 375 2 (NumOrStr.num 30) ≤ wp 375 2 (NumOrStr.num 60) ∧
    vw 375 (NumOrStr.num 30) ≤ vw 375 (NumOrStr.num 60) ∧
    wp 375 2 (NumOrStr.num 0) = 0 ∧ vw 375 (NumOrStr.num 0) = 0 :=
  wp_vw_monotone_bounded 375 2 30 60
    (by norm_num) (by norm_num) (by norm_num) (by norm_num) (by norm_num)

end ResponsiveHook
